import Mathlib

/-!
# Verification of the chem-cli planning core

Shallow embedding of the planning components of the `chem-cli` repository:

* `ResearchPlanner` (`src/planning/research-planner.js`)
* `ExecutionPlanner` (`src/planning/execution-planner.js`)
* `TimeEstimator` (`time-estimator.js`)
* `AccuracyEstimator` (`accuracy-estimator.js`)
* `PrecisionCalculator` (`precision-calculator.js`)

Embedding conventions:

* JavaScript numbers (IEEE doubles) are modelled as `ℚ`.  All constants in the
  static tables are short decimals, so they are represented exactly.
* `Math.pow` with a non-integral exponent is transcendental; it is modelled as
  an explicit function parameter `pow : ℚ → ℚ → ℚ` threaded through
  `TimeEstimator.estimate` and its callers.  Theorems hold for every `pow`
  (adding a sign or value hypothesis where needed).
* `Math.round` is JavaScript rounding (half away towards `+∞`): `⌊x + 1/2⌋`.
* JavaScript object literals used as keyed tables are modelled as association
  lists in source order (`Object.entries` enumerates string keys in insertion
  order); property access `t[k]` is `List.lookup` and `t[k] || d` is `.getD d`
  (no table in this code contains a falsy value, so the two agree).
* A property access on `undefined` (a JavaScript `TypeError`) is modelled by
  returning `none`; functions that can throw return `Option`.
* `Array.prototype.sort` with a numeric comparator is a stable sort; it is
  modelled by a stable insertion sort matching the comparator.
* Presentation-only string fields (formatted durations, limitation texts,
  benchmark citations) are elided from result records; none of their
  computations branches on a possibly-`undefined` value.
-/

/-- JavaScript `Math.round`: round half towards positive infinity. -/
def jsRound (x : ℚ) : ℤ := ⌊x + 1/2⌋

/-- JavaScript `String.prototype.includes`: substring containment. -/
def jsIncludes (s pat : String) : Bool := go pat.toList s.toList
where
  go (pat : List Char) : List Char → Bool
    | [] => pat.isEmpty
    | c :: rest => pat.isPrefixOf (c :: rest) || go pat rest

namespace ResearchPlanner

/-- One entry of `ResearchPlanner.calculationTypes`.  The `methods`,
`description` and `requiredSteps` fields are never read by the classification
path and are elided. -/
structure CalcTypeInfo where
  name : String
  keywords : List String
deriving Repr, DecidableEq

/-- `this.calculationTypes` from `research-planner.js`, in source (insertion)
order. -/
def calculationTypes : List (String × CalcTypeInfo) :=
  [ ("absorption_spectrum",
      { name := "UV-Vis Absorption Spectrum"
        keywords := ["absorption", "uv-vis", "spectrum", "excitation", "electronic transition"] }),
    ("emission_spectrum",
      { name := "Fluorescence/Phosphorescence Spectrum"
        keywords := ["emission", "fluorescence", "phosphorescence", "excited state"] }),
    ("geometry_optimization",
      { name := "Molecular Geometry Optimization"
        keywords := ["optimize", "geometry", "structure", "minimum", "equilibrium"] }),
    ("frequency_analysis",
      { name := "Vibrational Frequency Analysis"
        keywords := ["frequency", "vibration", "ir", "infrared", "spectrum"] }),
    ("homo_lumo",
      { name := "HOMO-LUMO Gap Analysis"
        keywords := ["homo", "lumo", "gap", "frontier", "orbital", "energy"] }),
    ("nmr_prediction",
      { name := "NMR Chemical Shift Prediction"
        keywords := ["nmr", "chemical shift", "1h", "13c", "proton", "carbon"] }),
    ("reaction_energy",
      { name := "Reaction Energy Calculation"
        keywords := ["reaction", "energy", "barrier", "transition", "state", "thermodynamics"] }) ]

/-- `ResearchPlanner.identifyCalculationType`: scan the calculation types in
table order and return the first whose keyword list has a member that is a
substring of the request. -/
def identifyCalculationType (request : String) : Option String :=
  go calculationTypes
where
  go : List (String × CalcTypeInfo) → Option String
    | [] => none
    | (t, info) :: rest =>
        if info.keywords.any (fun k => jsIncludes request k) then some t else go rest

end ResearchPlanner

namespace TimeEstimator

/-- One entry of `this.baseTimes`: base minutes and size-scaling exponent. -/
structure BaseData where
  base : ℚ
  scaling : ℚ
deriving Repr, DecidableEq

/-- `this.baseTimes` from `time-estimator.js`. -/
def baseTimes : List (String × List (String × BaseData)) :=
  [ ("geometry_optimization",
      [ ("xtb", ⟨0.5, 1.2⟩), ("psi4", ⟨5, 2.0⟩), ("orca", ⟨3, 1.8⟩), ("pyscf", ⟨8, 2.2⟩) ]),
    ("absorption_spectrum",
      [ ("psi4", ⟨15, 3.0⟩), ("orca", ⟨12, 2.5⟩), ("pyscf", ⟨25, 3.5⟩) ]),
    ("frequency_analysis",
      [ ("xtb", ⟨2, 1.5⟩), ("psi4", ⟨20, 3.5⟩), ("orca", ⟨15, 3.0⟩) ]),
    ("nmr_prediction",
      [ ("psi4", ⟨30, 3.0⟩), ("orca", ⟨25, 2.8⟩) ]) ]

/-- `this.basisSetFactors`. -/
def basisSetFactors : List (String × ℚ) :=
  [ ("STO-3G", 1.0), ("def2-SVP", 1.5), ("def2-TZVP", 3.0), ("def2-QZVP", 8.0),
    ("cc-pVDZ", 2.0), ("cc-pVTZ", 5.0), ("aug-cc-pVDZ", 3.5), ("aug-cc-pVTZ", 12.0) ]

/-- `this.precisionFactors`. -/
def precisionFactors : List (String × ℚ) :=
  [ ("low", 0.5), ("half", 1.0), ("full", 2.5) ]

/-- `this.functionalFactors`. -/
def functionalFactors : List (String × ℚ) :=
  [ ("B3LYP", 1.0), ("CAM-B3LYP", 1.3), ("M06-2X", 1.2), ("wB97XD", 1.4),
    ("HF", 0.8), ("xtb", 0.1) ]

/-- The `calculationParams` argument of `TimeEstimator.estimate`. -/
structure TimeParams where
  calculationType : String
  precisionLevel : String
  moleculeSize : ℚ
  basisSet : String
  functional : String
  software : String
deriving Repr, DecidableEq

/-- The min/max band of a time estimate (`range` field). -/
structure TimeRange where
  min : ℤ
  max : ℤ
  minHours : ℚ
  maxHours : ℚ
deriving Repr, DecidableEq

/-- The numeric content of the object built by `formatTimeEstimate` /
`getDefaultEstimate`.  The `formatted`, `rangeFormatted`, `confidence`,
`factors` and `bottlenecks` fields are presentation-only strings and are
elided; their computations never throw. -/
structure Estimate where
  minutes : ℚ
  hours : ℚ
  range : TimeRange
deriving Repr, DecidableEq

/-- `TimeEstimator.getDefaultEstimate`: fallback when no benchmark entry
exists for `(calculationType, software)`. -/
def getDefaultEstimate (calculationType precisionLevel : String) : Estimate :=
  let defaults : List (String × List (String × ℚ)) :=
    [ ("geometry_optimization", [("low", 15), ("half", 45), ("full", 120)]),
      ("absorption_spectrum", [("low", 30), ("half", 90), ("full", 300)]),
      ("frequency_analysis", [("low", 45), ("half", 120), ("full", 360)]),
      ("nmr_prediction", [("low", 60), ("half", 180), ("full", 480)]) ]
  let timeMinutes := ((defaults.lookup calculationType).bind
    (fun t => t.lookup precisionLevel)).getD 60
  { minutes := timeMinutes
    hours := timeMinutes / 60
    range :=
      { min := jsRound (timeMinutes * 0.7)
        max := jsRound (timeMinutes * 1.5)
        minHours := timeMinutes * 0.7 / 60
        maxHours := timeMinutes * 1.5 / 60 } }

/-- `TimeEstimator.formatTimeEstimate` (numeric fields). -/
def formatTimeEstimate (totalMinutes minTime maxTime : ℚ) : Estimate :=
  { minutes := (jsRound totalMinutes : ℤ)
    hours := totalMinutes / 60
    range :=
      { min := jsRound minTime
        max := jsRound maxTime
        minHours := minTime / 60
        maxHours := maxTime / 60 } }

/-- `TimeEstimator.estimate`.  `pow` models `Math.pow`. -/
def estimate (pow : ℚ → ℚ → ℚ) (p : TimeParams) : Estimate :=
  match (baseTimes.lookup p.calculationType).bind (fun t => t.lookup p.software) with
  | none => getDefaultEstimate p.calculationType p.precisionLevel
  | some baseData =>
      let baseTime := baseData.base
      let scaling := baseData.scaling
      let sizeScale := pow (p.moleculeSize / 10) scaling
      let basisFactor := (basisSetFactors.lookup p.basisSet).getD 1.5
      let precisionFactor := (precisionFactors.lookup p.precisionLevel).getD 1.0
      let functionalFactor := (functionalFactors.lookup p.functional).getD 1.0
      let totalMinutes := baseTime * sizeScale * basisFactor * precisionFactor * functionalFactor
      let uncertainty : ℚ := 0.3
      let minTime := totalMinutes * (1 - uncertainty)
      let maxTime := totalMinutes * (1 + uncertainty)
      formatTimeEstimate totalMinutes minTime maxTime

end TimeEstimator

namespace ExecutionPlanner

/-- Per-calculation-type support flags of a software package. -/
structure CalcSupport where
  supported : Bool
  recommended : Bool
  performance : String
deriving Repr, DecidableEq

/-- One software package of `this.softwareCapabilities`.  The `license`,
`weaknesses` and `parallelization` fields are not read by the scoring path and
are elided.  `typ` models the source field `type` (a Lean keyword). -/
structure Software where
  name : String
  typ : String
  strengths : List String
  calculationTypes : List (String × CalcSupport)
  maxAtoms : ℚ
  memoryEfficient : Bool
  installCommand : String
deriving Repr, DecidableEq

/-- `softwareCapabilities.psi4`. -/
def psi4 : Software :=
  { name := "Psi4", typ := "open_source"
    strengths := ["TD-DFT", "coupled_cluster", "MP2", "DFT"]
    calculationTypes :=
      [ ("absorption_spectrum", ⟨true, true, "good"⟩),
        ("emission_spectrum", ⟨true, true, "good"⟩),
        ("geometry_optimization", ⟨true, true, "excellent"⟩),
        ("frequency_analysis", ⟨true, true, "good"⟩),
        ("homo_lumo", ⟨true, true, "excellent"⟩),
        ("nmr_prediction", ⟨true, false, "fair"⟩),
        ("reaction_energy", ⟨true, true, "good"⟩) ]
    maxAtoms := 100
    memoryEfficient := true
    installCommand := "conda install -c conda-forge psi4" }

/-- `softwareCapabilities.orca`. -/
def orca : Software :=
  { name := "ORCA", typ := "free_academic"
    strengths := ["TD-DFT", "coupled_cluster", "multireference", "large_basis_sets"]
    calculationTypes :=
      [ ("absorption_spectrum", ⟨true, true, "excellent"⟩),
        ("emission_spectrum", ⟨true, true, "excellent"⟩),
        ("geometry_optimization", ⟨true, true, "excellent"⟩),
        ("frequency_analysis", ⟨true, true, "excellent"⟩),
        ("homo_lumo", ⟨true, true, "excellent"⟩),
        ("nmr_prediction", ⟨true, true, "excellent"⟩),
        ("reaction_energy", ⟨true, true, "excellent"⟩) ]
    maxAtoms := 500
    memoryEfficient := true
    installCommand := "Manual download from ORCA forum required" }

/-- `softwareCapabilities.xtb`. -/
def xtb : Software :=
  { name := "xTB", typ := "open_source"
    strengths := ["very_fast", "large_molecules", "conformer_search"]
    calculationTypes :=
      [ ("absorption_spectrum", ⟨false, false, "poor"⟩),
        ("emission_spectrum", ⟨false, false, "poor"⟩),
        ("geometry_optimization", ⟨true, true, "excellent"⟩),
        ("frequency_analysis", ⟨true, true, "good"⟩),
        ("homo_lumo", ⟨true, true, "good"⟩),
        ("nmr_prediction", ⟨false, false, "poor"⟩),
        ("reaction_energy", ⟨true, false, "fair"⟩) ]
    maxAtoms := 10000
    memoryEfficient := true
    installCommand := "conda install -c conda-forge xtb" }

/-- `softwareCapabilities.pyscf`. -/
def pyscf : Software :=
  { name := "PySCF", typ := "open_source"
    strengths := ["python_integration", "customizable", "TD-DFT"]
    calculationTypes :=
      [ ("absorption_spectrum", ⟨true, true, "good"⟩),
        ("emission_spectrum", ⟨true, false, "fair"⟩),
        ("geometry_optimization", ⟨true, false, "fair"⟩),
        ("frequency_analysis", ⟨false, false, "poor"⟩),
        ("homo_lumo", ⟨true, true, "excellent"⟩),
        ("nmr_prediction", ⟨true, false, "fair"⟩),
        ("reaction_energy", ⟨true, false, "fair"⟩) ]
    maxAtoms := 200
    memoryEfficient := false
    installCommand := "conda install -c conda-forge pyscf" }

/-- `this.softwareCapabilities` in source (insertion) order. -/
def softwareCapabilities : List (String × Software) :=
  [ ("psi4", psi4), ("orca", orca), ("xtb", xtb), ("pyscf", pyscf) ]

/-- The fields of `researchPlan.theoryLevel` read by the execution planner
and the precision calculator. -/
structure TheoryLevel where
  functional : String
  basisSet : String
  preferredMethod : String
deriving Repr, DecidableEq

/-- The `moleculeInfo` argument: only `estimatedSize` is read here.  A JS
value of `0` or `undefined` is falsy, so the size branch is skipped for
`none` and for `some 0`. -/
structure Molecule where
  estimatedSize : Option ℚ
deriving Repr, DecidableEq

/-- `performanceScores` table local to `calculateSoftwareScore`. -/
def performanceScores : List (String × ℤ) :=
  [ ("excellent", 25), ("good", 20), ("fair", 10), ("poor", 0) ]

/-- Result of `calculateSoftwareScore`: the total and the `supported` flag of
the `details` object (the other `details` flags are not read by any claim). -/
structure ScoreResult where
  total : ℤ
  supported : Bool
deriving Repr, DecidableEq

/-- `ExecutionPlanner.calculateSoftwareScore`, with the sequential `score +=`
updates of the source written as successive lets. -/
def calculateSoftwareScore (software : Software) (calculationType : String)
    (theoryLevel : TheoryLevel) (molecule : Option Molecule) : ScoreResult :=
  match software.calculationTypes.lookup calculationType with
  | none => { total := 0, supported := false }
  | some calcSupport =>
      if !calcSupport.supported then { total := 0, supported := false }
      else
        let s1 : ℤ := if calcSupport.recommended then 30 else 10
        let s2 := s1 + (performanceScores.lookup calcSupport.performance).getD 0
        let s3 := s2 +
          (if software.strengths.contains theoryLevel.preferredMethod ||
              software.strengths.contains calculationType then 20 else 0)
        let s4 := s3 +
          (match molecule with
           | none => 0
           | some m =>
              match m.estimatedSize with
              | none => 0
              | some size =>
                  if size = 0 then 0
                  else if size ≤ software.maxAtoms then
                    15 + (if 50 < size && software.memoryEfficient then 10 else 0)
                  else -20)
        let s5 := s4 + (if software.typ = "open_source" then 15 else 0)
        let s6 := s5 + (if jsIncludes software.installCommand "Manual" then 0 else 10)
        { total := s6, supported := true }

/-- One entry of the array built by `rankSoftware`. -/
structure RankedEntry where
  name : String
  software : Software
  score : ℤ
deriving Repr, DecidableEq

/-- Stable insertion of an entry into a descending-by-score list: models one
step of `scores.sort((a, b) => b.score - a.score)` (a stable sort). -/
def insertDesc (x : RankedEntry) : List RankedEntry → List RankedEntry
  | [] => [x]
  | y :: ys => if y.score ≤ x.score then x :: y :: ys else y :: insertDesc x ys

/-- Stable descending sort by score. -/
def sortDesc : List RankedEntry → List RankedEntry
  | [] => []
  | x :: xs => insertDesc x (sortDesc xs)

/-- The entry pushed by `rankSoftware` for one row of the capability table. -/
def rankedEntryFor (calculationType : String) (theoryLevel : TheoryLevel)
    (molecule : Option Molecule) (nl : String × Software) : RankedEntry :=
  { name := nl.1
    software := nl.2
    score := (calculateSoftwareScore nl.2 calculationType theoryLevel molecule).total }

/-- `ExecutionPlanner.rankSoftware`. -/
def rankSoftware (calculationType : String) (theoryLevel : TheoryLevel)
    (molecule : Option Molecule) : List RankedEntry :=
  sortDesc (softwareCapabilities.map (rankedEntryFor calculationType theoryLevel molecule))

end ExecutionPlanner

namespace AccuracyEstimator

/-- A benchmark record `{ meanError, stdDev, unit }`. -/
structure ErrorRec where
  meanError : ℚ
  stdDev : ℚ
  unit : String
deriving Repr, DecidableEq

/-- `this.accuracyBenchmarks`, keyed by calculation type and then by the
`functional/basisSet` method key.  The `basis_set_effects` sub-table of
`absorption_spectrum` is dead data (never read) and is elided. -/
def accuracyBenchmarks : List (String × List (String × ErrorRec)) :=
  [ ("absorption_spectrum",
      [ ("B3LYP/def2-SVP", ⟨0.35, 0.25, "eV"⟩),
        ("B3LYP/def2-TZVP", ⟨0.25, 0.20, "eV"⟩),
        ("B3LYP/def2-QZVP", ⟨0.20, 0.18, "eV"⟩),
        ("CAM-B3LYP/def2-SVP", ⟨0.25, 0.22, "eV"⟩),
        ("CAM-B3LYP/def2-TZVP", ⟨0.18, 0.18, "eV"⟩),
        ("CAM-B3LYP/def2-QZVP", ⟨0.15, 0.15, "eV"⟩) ]),
    ("geometry_optimization",
      [ ("B3LYP/def2-SVP", ⟨0.015, 0.012, "Å"⟩),
        ("B3LYP/def2-TZVP", ⟨0.008, 0.008, "Å"⟩),
        ("B3LYP/def2-QZVP", ⟨0.005, 0.006, "Å"⟩) ]),
    ("frequency_analysis",
      [ ("B3LYP/def2-SVP", ⟨35, 25, "cm⁻¹"⟩),
        ("B3LYP/def2-TZVP", ⟨25, 20, "cm⁻¹"⟩),
        ("B3LYP/def2-QZVP", ⟨20, 18, "cm⁻¹"⟩) ]),
    ("homo_lumo",
      [ ("B3LYP/def2-SVP", ⟨0.4, 0.3, "eV"⟩),
        ("B3LYP/def2-TZVP", ⟨0.3, 0.25, "eV"⟩),
        ("B3LYP/def2-QZVP", ⟨0.25, 0.22, "eV"⟩) ]) ]

/-- One entry of `this.precisionAccuracy` (description string elided). -/
structure PrecisionRec where
  multiplier : ℚ
deriving Repr, DecidableEq

/-- `this.precisionAccuracy`. -/
def precisionAccuracy : List (String × PrecisionRec) :=
  [ ("low", ⟨2.5⟩), ("half", ⟨1.0⟩), ("full", ⟨0.7⟩) ]

/-- One entry of `this.functionalCorrections`. -/
structure FunctionalRec where
  chargeTransfer : ℚ
  generalAccuracy : ℚ
deriving Repr, DecidableEq

/-- `this.functionalCorrections`. -/
def functionalCorrections : List (String × FunctionalRec) :=
  [ ("B3LYP", ⟨1.0, 1.0⟩), ("CAM-B3LYP", ⟨0.7, 0.9⟩), ("M06-2X", ⟨0.8, 0.95⟩),
    ("wB97XD", ⟨0.75, 0.9⟩), ("PBE", ⟨1.3, 1.1⟩), ("HF", ⟨0.9, 1.2⟩) ]

/-- The `calculationParams` argument of `AccuracyEstimator.estimate`. -/
structure AccuracyParams where
  calculationType : String
  precisionLevel : String
  basisSet : String
  functional : String
  referenceLevel : String
deriving Repr, DecidableEq

/-- The `qualityMap` table local to `estimateBasisSetQuality` (lifted to the
top level so that theorems can speak about unknown keys). -/
def qualityMap : List (String × ℚ) :=
  [ ("STO-3G", 0.2), ("def2-SVP", 0.7), ("def2-TZVP", 0.9), ("def2-QZVP", 1.0),
    ("cc-pVDZ", 0.8), ("cc-pVTZ", 0.95), ("aug-cc-pVDZ", 0.85), ("aug-cc-pVTZ", 0.98) ]

/-- `AccuracyEstimator.estimateBasisSetQuality`: static 0–1 quality map,
`0.5` for unknown basis sets. -/
def estimateBasisSetQuality (basisSet : String) : ℚ :=
  (qualityMap.lookup basisSet).getD 0.5

/-- `AccuracyEstimator.getDefaultAccuracy`: synthetic baseline derived from
the basis-set quality. -/
def getDefaultAccuracy (calculationType : String) (basisQuality : ℚ) : ErrorRec :=
  let defaults : List (String × ErrorRec) :=
    [ ("absorption_spectrum",
        ⟨0.4 * (1.5 - basisQuality), 0.3 * (1.5 - basisQuality), "eV"⟩),
      ("geometry_optimization",
        ⟨0.02 * (1.5 - basisQuality), 0.015 * (1.5 - basisQuality), "Å"⟩),
      ("frequency_analysis",
        ⟨50 * (1.5 - basisQuality), 35 * (1.5 - basisQuality), "cm⁻¹"⟩),
      ("homo_lumo",
        ⟨0.5 * (1.5 - basisQuality), 0.4 * (1.5 - basisQuality), "eV"⟩) ]
  (defaults.lookup calculationType).getD ⟨0.1, 0.1, "a.u."⟩

/-- `AccuracyEstimator.getBaseAccuracy`. -/
def getBaseAccuracy (calculationType functional basisSet : String) : ErrorRec :=
  let methodKey := functional ++ "/" ++ basisSet
  match (accuracyBenchmarks.lookup calculationType).bind (fun b => b.lookup methodKey) with
  | some rec => rec
  | none => getDefaultAccuracy calculationType (estimateBasisSetQuality basisSet)

/-- The asymmetric confidence band of an expected error. -/
structure ErrorRange where
  low : ℚ
  high : ℚ
deriving Repr, DecidableEq

/-- Result of `calculateExpectedError`. -/
structure ExpectedError where
  mean : ℚ
  stdDev : ℚ
  unit : String
  range : ErrorRange
deriving Repr, DecidableEq

/-- `AccuracyEstimator.calculateExpectedError`. -/
def calculateExpectedError (baseAccuracy : ErrorRec) (precisionCorrection : PrecisionRec)
    (functionalCorrection : FunctionalRec) : ExpectedError :=
  let baseError := baseAccuracy.meanError
  let precisionMultiplier := precisionCorrection.multiplier
  let functionalMultiplier := functionalCorrection.generalAccuracy
  let adjustedError := baseError * precisionMultiplier * functionalMultiplier
  { mean := adjustedError
    stdDev := baseAccuracy.stdDev * precisionMultiplier
    unit := baseAccuracy.unit
    range := { low := adjustedError * 0.5, high := adjustedError * 1.8 } }

/-- Result of `getConfidenceLevel`. -/
structure Confidence where
  percentage : ℤ
  level : String
  description : String
deriving Repr, DecidableEq

/-- `AccuracyEstimator.getConfidenceDescription`. -/
def getConfidenceDescription (confidence : ℤ) : String :=
  if 85 < confidence then "Results should be quantitatively reliable"
  else if 70 < confidence then "Results should capture major trends accurately"
  else if 50 < confidence then "Results useful for qualitative comparisons"
  else "Results should be interpreted with caution"

/-- `AccuracyEstimator.getConfidenceLevel`: base 70%, additive adjustments,
clamped to `[20, 95]`. -/
def getConfidenceLevel (params : AccuracyParams) : Confidence :=
  let c0 : ℤ := 70
  let c1 := c0 +
    (if params.functional = "B3LYP" ∧ params.basisSet = "def2-TZVP" then 20 else 0)
  let c2 := c1 +
    (if params.calculationType = "geometry_optimization" then 10
     else if params.calculationType = "absorption_spectrum" then -5 else 0)
  let c3 := c2 +
    (if params.precisionLevel = "full" then 15
     else if params.precisionLevel = "low" then -20 else 0)
  let confidence := max 20 (min 95 c3)
  { percentage := confidence
    level := if 80 < confidence then "High" else if 60 < confidence then "Medium" else "Low"
    description := getConfidenceDescription confidence }

/-- The fields of the object returned by `AccuracyEstimator.estimate` that
carry numeric content.  The `vsExperiment`, `vsFull`, formatted error,
`reliability`, `limitations` and `benchmarkData` fields are presentation
strings whose computations never access a possibly-`undefined` property and
are elided. -/
structure AccuracyResult where
  expectedError : ExpectedError
  confidence : Confidence
deriving Repr, DecidableEq

/-- `AccuracyEstimator.estimate`.  When `precisionLevel` is not a key of
`precisionAccuracy`, the source dereferences
`precisionCorrection.multiplier` on `undefined` and throws a `TypeError`;
this is the `none` result. -/
def estimate (p : AccuracyParams) : Option AccuracyResult :=
  let baseAccuracy := getBaseAccuracy p.calculationType p.functional p.basisSet
  match precisionAccuracy.lookup p.precisionLevel with
  | none => none
  | some precisionCorrection =>
      let functionalCorrection :=
        (functionalCorrections.lookup p.functional).getD ⟨1.0, 1.0⟩
      let expectedError :=
        calculateExpectedError baseAccuracy precisionCorrection functionalCorrection
      some { expectedError := expectedError, confidence := getConfidenceLevel p }

end AccuracyEstimator

namespace PrecisionCalculator

open ExecutionPlanner (TheoryLevel)

/-- One entry of `this.precisionLevels`. -/
structure LevelConfig where
  name : String
  description : String
  priority : ℤ
  color : String
deriving Repr, DecidableEq

/-- `this.precisionLevels` in source (insertion) order. -/
def precisionLevels : List (String × LevelConfig) :=
  [ ("full",
      { name := "Full Precision"
        description := "Maximum accuracy using large basis sets and tight convergence"
        priority := 1, color := "blue" }),
    ("half",
      { name := "Balanced Precision"
        description := "Good accuracy with reasonable computational cost"
        priority := 2, color := "green" }),
    ("low",
      { name := "Fast Preview"
        description := "Quick results using smaller basis sets for initial screening"
        priority := 3, color := "yellow" }) ]

/-- `this.basisSetHierarchy`. -/
def basisSetHierarchy : List (String × List (String × String)) :=
  [ ("full", [("small", "def2-QZVP"), ("medium", "def2-TZVP"), ("large", "def2-SVP")]),
    ("half", [("small", "def2-TZVP"), ("medium", "def2-SVP"), ("large", "def2-SVP")]),
    ("low", [("small", "def2-SVP"), ("medium", "STO-3G"), ("large", "STO-3G")]) ]

/-- Convergence thresholds of `this.convergenceCriteria`. -/
structure Convergence where
  energy : ℚ
  gradient : ℚ
  density : ℚ
  maxIterations : ℕ
deriving Repr, DecidableEq

/-- `this.convergenceCriteria`. -/
def convergenceCriteria : List (String × Convergence) :=
  [ ("full", ⟨1e-8, 1e-6, 1e-8, 200⟩),
    ("half", ⟨1e-6, 1e-4, 1e-6, 100⟩),
    ("low", ⟨1e-4, 1e-3, 1e-4, 50⟩) ]

/-- The `moleculeInfo` argument of the precision calculator.  A JS value of
`0`, an empty string, or `undefined` is falsy; an array (even empty) is
truthy. -/
structure MoleculeInfo where
  estimatedSize : Option ℚ
  atoms : Option (List String)
  smiles : Option String
deriving Repr, DecidableEq

/-- Count of SMILES characters matching the regex `/[CNOFPS]/gi`. -/
def heavyAtomCount (smiles : String) : ℕ :=
  (smiles.toList.filter (fun c => "CNOFPScnofps".toList.contains c)).length

/-- `PrecisionCalculator.estimateMoleculeSize`: `estimatedSize` if truthy,
else atom count, else a SMILES-based guess, else the default `10`. -/
def estimateMoleculeSize (mi : MoleculeInfo) : ℚ :=
  match mi.estimatedSize with
  | some s => if s = 0 then sizeFromAtoms mi else s
  | none => sizeFromAtoms mi
where
  sizeFromAtoms (mi : MoleculeInfo) : ℚ :=
    match mi.atoms with
    | some l => l.length
    | none => sizeFromSmiles mi
  sizeFromSmiles (mi : MoleculeInfo) : ℚ :=
    match mi.smiles with
    | some s => if s = "" then 10 else max (heavyAtomCount s) ((s.length : ℚ) / 3)
    | none => 10

/-- `PrecisionCalculator.getSizeCategory`. -/
def getSizeCategory (moleculeSize : ℚ) : String :=
  if moleculeSize < 10 then "small"
  else if moleculeSize < 30 then "medium"
  else "large"

/-- One entry of the `params` table of `getComputationalParameters`. -/
structure CompParams where
  memory : String
  cores : ℕ
  disk : String
deriving Repr, DecidableEq

/-- `PrecisionCalculator.getComputationalParameters`.  A missing precision
level makes the source throw on `params[precisionLevel][sizeCategory]`; a
missing category yields `undefined`, which throws at the later
`computationalParams.memory` access — both are `none` here.  The category is
always one of the three keys produced by `getSizeCategory`. -/
def getComputationalParameters (precisionLevel sizeCategory : String) : Option CompParams :=
  let params : List (String × List (String × CompParams)) :=
    [ ("full",
        [ ("small", ⟨"8 GB", 8, "5 GB"⟩), ("medium", ⟨"16 GB", 16, "10 GB"⟩),
          ("large", ⟨"32 GB", 24, "20 GB"⟩) ]),
      ("half",
        [ ("small", ⟨"4 GB", 4, "2 GB"⟩), ("medium", ⟨"8 GB", 8, "5 GB"⟩),
          ("large", ⟨"16 GB", 12, "10 GB"⟩) ]),
      ("low",
        [ ("small", ⟨"2 GB", 2, "1 GB"⟩), ("medium", ⟨"4 GB", 4, "2 GB"⟩),
          ("large", ⟨"8 GB", 6, "3 GB"⟩) ]) ]
  (params.lookup precisionLevel).bind (fun t => t.lookup sizeCategory)

/-- `PrecisionCalculator.getGeneralRecommendation` (returns `undefined` for an
unknown level, which is not a throw). -/
def getGeneralRecommendation (level : String) : Option String :=
  ([ ("full", "Use when highest accuracy is required and computational resources allow"),
     ("half", "Recommended balance of accuracy and computational efficiency"),
     ("low", "Good for initial screening and rapid results") ]
    : List (String × String)).lookup level

/-- `PrecisionCalculator.getRecommendation`. -/
def getRecommendation (level calculationType : String) (mi : MoleculeInfo) : Option String :=
  let size := estimateMoleculeSize mi
  if calculationType = "absorption_spectrum" then
    if level = "full" then
      some (if size < 20 then "Recommended for publication-quality results"
            else "Use only if high accuracy is critical")
    else if level = "half" then
      some "Good balance of accuracy and speed - recommended for most studies"
    else some "Good for initial screening and method testing"
  else if calculationType = "geometry_optimization" then
    if level = "full" then
      some (if size < 30 then "Best for accurate geometric parameters"
            else "May be too expensive")
    else if level = "half" then some "Recommended for most optimization tasks"
    else some "Good for initial structure generation"
  else getGeneralRecommendation level

/-- `PrecisionCalculator.getWarnings`. -/
def getWarnings (level calculationType : String) (mi : MoleculeInfo) : List String :=
  let size := estimateMoleculeSize mi
  (if level = "full" ∧ 50 < size then
    ["Very large molecule - calculation may take days or fail"] else []) ++
  (if level = "low" ∧ calculationType = "absorption_spectrum" then
    ["Low precision may not capture charge-transfer excitations accurately"] else []) ++
  (if level = "low" then
    ["Results may have significant quantitative errors - use for trends only"] else []) ++
  (if calculationType = "nmr_prediction" ∧ level = "low" then
    ["NMR predictions require higher precision for reliable chemical shifts"] else [])

/-- Result of `analyzeCostBenefit`. -/
structure CostBenefit where
  accuracyScore : ℚ
  speedScore : ℚ
  efficiencyScore : ℚ
  overallScore : ℤ
  recommendation : String
deriving Repr, DecidableEq

/-- `PrecisionCalculator.analyzeCostBenefit`.  Only `timeEstimate.hours` is
read; the `accuracyEstimate` parameter is unused in the source as well.  An
unknown level makes the source throw on `score.accuracy` — `none` here. -/
def analyzeCostBenefit (level : String) (timeEstimate : TimeEstimator.Estimate)
    (_accuracyEstimate : AccuracyEstimator.AccuracyResult) : Option CostBenefit :=
  let hours := timeEstimate.hours
  let scores : List (String × (ℚ × ℚ × ℚ)) :=
    [ ("full",
        (10,
         if hours < 4 then 6 else if hours < 12 then 4 else 2,
         if hours < 2 then 8 else if hours < 8 then 6 else 4)),
      ("half", (8, 8, 9)),
      ("low", (5, 10, 7)) ]
  match scores.lookup level with
  | none => none
  | some (a, s, e) =>
      let overall := jsRound ((a + s + e) / 3)
      some { accuracyScore := a, speedScore := s, efficiencyScore := e
             overallScore := overall
             recommendation :=
               if 8 ≤ overall then "Highly recommended"
               else if 6 ≤ overall then "Good choice"
               else if 4 ≤ overall then "Consider alternatives"
               else "Not recommended" }

/-- `PrecisionCalculator.getUseCases` (returns `undefined` for an unknown
level, which is not a throw). -/
def getUseCases (level : String) : Option (List String) :=
  ([ ("full",
      ["Publication-quality results", "Benchmark calculations", "Method validation",
       "Critical decision making"]),
     ("half",
      ["Routine research calculations", "Parameter optimization", "Comparative studies",
       "Educational purposes"]),
     ("low",
      ["Initial screening", "Method testing", "Proof of concept",
       "Large dataset generation"]) ] : List (String × List String)).lookup level

/-- The fields of a generated precision option that carry structured content.
The `estimatedTime`, `accuracyVsExperiment`, `accuracyVsFull` and
`expectedError` fields are formatted strings and are elided; `timeRange` and
`confidenceLevel` keep their numeric content. -/
structure PrecisionOption where
  level : String
  name : String
  description : String
  priority : ℤ
  color : String
  basisSet : String
  convergence : Option Convergence
  timeRange : TimeEstimator.TimeRange
  memoryRequirement : String
  cpuCores : ℕ
  diskSpace : String
  confidenceLevel : AccuracyEstimator.Confidence
  recommended : Option String
  warnings : List String
  costBenefit : CostBenefit
  useCases : Option (List String)
deriving Repr, DecidableEq

/-- `PrecisionCalculator.generatePrecisionOption`.  The `basisSetHierarchy`
level access would throw for an unknown level; the category lookup always
succeeds because `getSizeCategory` only returns the three keys. -/
def generatePrecisionOption (pow : ℚ → ℚ → ℚ) (level : String) (config : LevelConfig)
    (calculationType : String) (mi : MoleculeInfo) (theoryLevel : TheoryLevel)
    (software sizeCategory : String) : Option PrecisionOption := do
  let hierarchyRow ← basisSetHierarchy.lookup level
  let basisSet ← hierarchyRow.lookup sizeCategory
  let timeEstimate := TimeEstimator.estimate pow
    { calculationType := calculationType
      precisionLevel := level
      moleculeSize := estimateMoleculeSize mi
      basisSet := basisSet
      functional := theoryLevel.functional
      software := software }
  let accuracyEstimate ← AccuracyEstimator.estimate
    { calculationType := calculationType
      precisionLevel := level
      basisSet := basisSet
      functional := theoryLevel.functional
      referenceLevel := "full" }
  let computationalParams ← getComputationalParameters level sizeCategory
  let costBenefit ← analyzeCostBenefit level timeEstimate accuracyEstimate
  some
    { level := level
      name := config.name
      description := config.description
      priority := config.priority
      color := config.color
      basisSet := basisSet
      convergence := convergenceCriteria.lookup level
      timeRange := timeEstimate.range
      memoryRequirement := computationalParams.memory
      cpuCores := computationalParams.cores
      diskSpace := computationalParams.disk
      confidenceLevel := accuracyEstimate.confidence
      recommended := getRecommendation level calculationType mi
      warnings := getWarnings level calculationType mi
      costBenefit := costBenefit
      useCases := getUseCases level }

/-- Stable insertion into an ascending-by-priority list: models one step of
`options.sort((a, b) => a.priority - b.priority)` (a stable sort). -/
def insertAsc (x : PrecisionOption) : List PrecisionOption → List PrecisionOption
  | [] => [x]
  | y :: ys => if x.priority ≤ y.priority then x :: y :: ys else y :: insertAsc x ys

/-- Stable ascending sort by priority. -/
def sortAsc : List PrecisionOption → List PrecisionOption
  | [] => []
  | x :: xs => insertAsc x (sortAsc xs)

/-- `PrecisionCalculator.calculatePrecisionOptions`: one option per entry of
`precisionLevels`, sorted by priority. -/
def calculatePrecisionOptions (pow : ℚ → ℚ → ℚ) (calculationType : String)
    (mi : MoleculeInfo) (theoryLevel : TheoryLevel) (software : String) :
    Option (List PrecisionOption) :=
  let moleculeSize := estimateMoleculeSize mi
  let sizeCategory := getSizeCategory moleculeSize
  (precisionLevels.mapM (fun lc =>
    generatePrecisionOption pow lc.1 lc.2 calculationType mi theoryLevel
      software sizeCategory)).map sortAsc

/-- Result of `getOverallRecommendation`. -/
structure OverallRec where
  recommended : String
  reason : String
  alternatives : List String
deriving Repr, DecidableEq

/-- `PrecisionCalculator.getOverallRecommendation`: `reduce` keeping the
earlier option unless a strictly higher overall score appears (`reduce` on an
empty array throws — `none`). -/
def getOverallRecommendation (options : List PrecisionOption) : Option OverallRec :=
  match options with
  | [] => none
  | b :: rest =>
      let bestOption := rest.foldl
        (fun best current =>
          if best.costBenefit.overallScore < current.costBenefit.overallScore then current
          else best) b
      some
        { recommended := bestOption.level
          reason := bestOption.name ++
            " offers the best balance of accuracy and computational efficiency"
          alternatives := (options.filter (fun o => o.level ≠ bestOption.level)).map
            (fun o => o.name ++ ": " ++ o.costBenefit.recommendation) }

end PrecisionCalculator

/-! ## Specification-side definitions

These definitions follow the words of the specification / claims (not the
source); the theorems below compare them with the embedded source
functions. -/

/-- Spec-side (C1, amended): the tag that classification of a bare keyword is
expected to return.  It is the owning tag except for the two keywords that an
earlier table entry also lists: `spectrum` (owned by `frequency_analysis`,
but listed first under `absorption_spectrum`) and `energy` (owned by
`reaction_energy`, but listed first under `homo_lumo`). -/
def c1ExpectedTag (tag keyword : String) : String :=
  if tag = "frequency_analysis" ∧ keyword = "spectrum" then "absorption_spectrum"
  else if tag = "reaction_energy" ∧ keyword = "energy" then "homo_lumo"
  else tag

/-- Spec-side (C3): the performance bonus table as enumerated by the claim
(excellent = 25, good = 20, fair = 10, poor = 0). -/
def specPerformanceBonus (performance : String) : ℤ :=
  if performance = "excellent" then 25
  else if performance = "good" then 20
  else if performance = "fair" then 10
  else 0

/-- Spec-side (C3): the molecule-size term of the score, as described by the
claim (15 within the ceiling, +10 more for large memory-efficient runs, −20
over the ceiling, 0 when no truthy size is known). -/
def specSizeTerm (sw : ExecutionPlanner.Software)
    (molecule : Option ExecutionPlanner.Molecule) : ℤ :=
  match molecule with
  | none => 0
  | some m =>
      match m.estimatedSize with
      | none => 0
      | some size =>
          if size = 0 then 0
          else if size ≤ sw.maxAtoms then
            15 + (if 50 < size && sw.memoryEfficient then 10 else 0)
          else -20

/-- Spec-side (C3): the software score as a sum of independent additive
terms, as enumerated by the claim. -/
def specSoftwareScore (sw : ExecutionPlanner.Software)
    (cs : ExecutionPlanner.CalcSupport) (calculationType : String)
    (tl : ExecutionPlanner.TheoryLevel)
    (molecule : Option ExecutionPlanner.Molecule) : ℤ :=
  (if cs.recommended then 30 else 10) +
  specPerformanceBonus cs.performance +
  (if sw.strengths.contains tl.preferredMethod ||
      sw.strengths.contains calculationType then 20 else 0) +
  specSizeTerm sw molecule +
  (if sw.typ = "open_source" then 15 else 0) +
  (if jsIncludes sw.installCommand "Manual" then 0 else 10)

/-- Spec-side (C4): the per-type base coefficient of the synthetic fallback
`meanError = coefficient * (1.5 - basisQuality)` in `getDefaultAccuracy`. -/
def specTypeBaseCoeff : List (String × ℚ) :=
  [ ("absorption_spectrum", 0.4), ("geometry_optimization", 0.02),
    ("frequency_analysis", 50), ("homo_lumo", 0.5) ]

/-! ## Concrete fixtures used by witnesses -/

/-- A concrete stand-in for `Math.pow`: cubing (exact for the integral
scaling exponent 3.0 used by the `absorption_spectrum`/`psi4` fixture). -/
def powCube : ℚ → ℚ → ℚ := fun x _ => x ^ 3

/-- A simple concrete stand-in for `Math.pow` used by witnesses whose claims
hold for every `pow`. -/
def powLin : ℚ → ℚ → ℚ := fun x e => x * e

/-- Benzene-like molecule info: six heavy atoms. -/
def benzeneInfo : PrecisionCalculator.MoleculeInfo :=
  { estimatedSize := some 6, atoms := none, smiles := none }

/-- Theory level fixture: CAM-B3LYP / TD-DFT (the research planner's choice
for absorption spectra). -/
def camTheoryLevel : ExecutionPlanner.TheoryLevel :=
  { functional := "CAM-B3LYP", basisSet := "def2-TZVP", preferredMethod := "TD-DFT" }

/-- Theory level fixture: B3LYP / DFT. -/
def b3lypTheoryLevel : ExecutionPlanner.TheoryLevel :=
  { functional := "B3LYP", basisSet := "def2-TZVP", preferredMethod := "DFT" }

/-- Time-estimate fixture hitting the benchmark branch
(`absorption_spectrum`/`psi4`). -/
def tpBench : TimeEstimator.TimeParams :=
  { calculationType := "absorption_spectrum", precisionLevel := "half"
    moleculeSize := 10, basisSet := "def2-TZVP", functional := "B3LYP"
    software := "psi4" }

/-- Time-estimate fixture hitting the default branch (`homo_lumo` has no
benchmark row). -/
def tpDefault : TimeEstimator.TimeParams :=
  { calculationType := "homo_lumo", precisionLevel := "half"
    moleculeSize := 10, basisSet := "def2-SVP", functional := "B3LYP"
    software := "psi4" }

/-- Accuracy-estimate fixture: a calculation type with no benchmark entry and
an unknown basis set. -/
def apFallback : AccuracyEstimator.AccuracyParams :=
  { calculationType := "emission_spectrum", precisionLevel := "low"
    basisSet := "weird", functional := "PBE", referenceLevel := "full" }

/-- The `TimeParams` record that `calculatePrecisionOptions` passes to the
time estimator for a given precision level and basis set, at the benzene /
absorption-spectrum / psi4 fixture. -/
def c7Params (level basisSet : String) : TimeEstimator.TimeParams :=
  { calculationType := "absorption_spectrum", precisionLevel := level
    moleculeSize := 6, basisSet := basisSet, functional := "CAM-B3LYP"
    software := "psi4" }


/-! ## Helper lemmas -/

namespace ExecutionPlanner

lemma insertDesc_ne_nil (x : RankedEntry) (l : List RankedEntry) : insertDesc x l ≠ [] := by
  cases l with
  | nil => simp [insertDesc]
  | cons y ys => unfold insertDesc; split <;> simp

lemma sortDesc_eq_nil {l : List RankedEntry} (h : sortDesc l = []) : l = [] := by
  cases l with
  | nil => rfl
  | cons x xs => exact absurd h (insertDesc_ne_nil x (sortDesc xs))

lemma mem_of_mem_insertDesc {y x : RankedEntry} {l : List RankedEntry}
    (hmem : y ∈ insertDesc x l) : y = x ∨ y ∈ l := by
  induction l with
  | nil =>
      simp only [insertDesc, List.mem_singleton] at hmem
      exact Or.inl hmem
  | cons z zs ih =>
      unfold insertDesc at hmem
      split at hmem
      · rcases List.mem_cons.mp hmem with h1 | h1
        · exact Or.inl h1
        · exact Or.inr h1
      · rcases List.mem_cons.mp hmem with h1 | h1
        · exact Or.inr (h1 ▸ List.mem_cons_self z zs)
        · rcases ih h1 with h2 | h2
          · exact Or.inl h2
          · exact Or.inr (List.mem_cons_of_mem z h2)

lemma mem_of_mem_sortDesc {y : RankedEntry} {l : List RankedEntry}
    (hmem : y ∈ sortDesc l) : y ∈ l := by
  induction l with
  | nil => simp [sortDesc] at hmem
  | cons a as ih =>
      unfold sortDesc at hmem
      rcases mem_of_mem_insertDesc hmem with h1 | h1
      · exact h1 ▸ List.mem_cons_self a as
      · exact List.mem_cons_of_mem a (ih h1)

lemma le_head_of_sortDesc :
    ∀ (l : List RankedEntry) (x hd : RankedEntry) (t : List RankedEntry),
      x ∈ l → sortDesc l = hd :: t → x.score ≤ hd.score := by
  intro l
  induction l with
  | nil => intro x hd t hx _; exact absurd hx (List.not_mem_nil x)
  | cons a as ih =>
      intro x hd t hx heq
      unfold sortDesc at heq
      cases hs : sortDesc as with
      | nil =>
          rw [hs] at heq
          have has : as = [] := sortDesc_eq_nil hs
          subst has
          simp only [insertDesc] at heq
          obtain ⟨rfl, -⟩ := List.cons.inj heq
          rcases List.mem_cons.mp hx with rfl | hx
          · exact le_refl _
          · exact absurd hx (List.not_mem_nil x)
      | cons b bs =>
          rw [hs] at heq
          unfold insertDesc at heq
          by_cases hc : b.score ≤ a.score
          · rw [if_pos hc] at heq
            obtain ⟨rfl, -⟩ := List.cons.inj heq
            rcases List.mem_cons.mp hx with rfl | hx
            · exact le_refl _
            · exact le_trans (ih x b bs hx hs) hc
          · rw [if_neg hc] at heq
            obtain ⟨rfl, -⟩ := List.cons.inj heq
            rcases List.mem_cons.mp hx with rfl | hx
            · exact le_of_lt (lt_of_not_le hc)
            · exact ih x b bs hx hs

lemma exists_supported_of_total_ne_zero {sw : Software} {ct : String}
    {tl : TheoryLevel} {mol : Option Molecule}
    (h : (calculateSoftwareScore sw ct tl mol).total ≠ 0) :
    ∃ cs, sw.calculationTypes.lookup ct = some cs ∧ cs.supported = true := by
  cases hl : sw.calculationTypes.lookup ct with
  | none =>
      exfalso
      apply h
      unfold calculateSoftwareScore
      rw [hl]
  | some cs =>
      cases hsb : cs.supported with
      | true => exact ⟨cs, rfl, hsb⟩
      | false =>
          exfalso
          apply h
          unfold calculateSoftwareScore
          rw [hl]
          simp [hsb]

lemma perf_bonus_eq (s : String) :
    ((performanceScores.lookup s).getD 0 : ℤ) = specPerformanceBonus s := by
  by_cases h1 : s = "excellent"
  · subst h1; rfl
  by_cases h2 : s = "good"
  · subst h2; rfl
  by_cases h3 : s = "fair"
  · subst h3; rfl
  by_cases h4 : s = "poor"
  · subst h4; rfl
  have e1 : (s == "excellent") = false := by simp [h1]
  have e2 : (s == "good") = false := by simp [h2]
  have e3 : (s == "fair") = false := by simp [h3]
  have e4 : (s == "poor") = false := by simp [h4]
  simp [performanceScores, specPerformanceBonus, List.lookup, e1, e2, e3, e4, h1, h2, h3, h4]

/-- The main C3 computation, as a reusable lemma: for a supported type the
sequentially accumulated score equals the spec-side sum. -/
lemma total_eq_specScore (sw : Software) (ct : String) (cs : CalcSupport)
    (tl : TheoryLevel) (mol : Option Molecule)
    (hl : sw.calculationTypes.lookup ct = some cs) (hs : cs.supported = true) :
    (calculateSoftwareScore sw ct tl mol).total = specSoftwareScore sw cs ct tl mol := by
  unfold calculateSoftwareScore specSoftwareScore specSizeTerm
  rw [hl]
  simp only [hs, Bool.not_true, Bool.false_eq_true, if_false, perf_bonus_eq]

lemma specSizeTerm_ge (sw : Software) (mol : Option Molecule) :
    -20 ≤ specSizeTerm sw mol := by
  unfold specSizeTerm
  rcases mol with - | ⟨- | size⟩ <;> (norm_num; try (split_ifs <;> norm_num))

lemma psi4_score_ge (ct : String)
    (hct : ct ∈ ResearchPlanner.calculationTypes.map Prod.fst)
    (tl : TheoryLevel) (mol : Option Molecule) :
    25 ≤ (calculateSoftwareScore psi4 ct tl mol).total := by
  have h7 : ct = "absorption_spectrum" ∨ ct = "emission_spectrum" ∨
      ct = "geometry_optimization" ∨ ct = "frequency_analysis" ∨
      ct = "homo_lumo" ∨ ct = "nmr_prediction" ∨ ct = "reaction_energy" := by
    simpa [ResearchPlanner.calculationTypes] using hct
  have hsz := specSizeTerm_ge psi4 mol
  rcases h7 with rfl | rfl | rfl | rfl | rfl | rfl | rfl <;>
    [ (rw [total_eq_specScore psi4 _ ⟨true, true, "good"⟩ tl mol (by decide) rfl]);
      (rw [total_eq_specScore psi4 _ ⟨true, true, "good"⟩ tl mol (by decide) rfl]);
      (rw [total_eq_specScore psi4 _ ⟨true, true, "excellent"⟩ tl mol (by decide) rfl]);
      (rw [total_eq_specScore psi4 _ ⟨true, true, "good"⟩ tl mol (by decide) rfl]);
      (rw [total_eq_specScore psi4 _ ⟨true, true, "excellent"⟩ tl mol (by decide) rfl]);
      (rw [total_eq_specScore psi4 _ ⟨true, false, "fair"⟩ tl mol (by decide) rfl]);
      (rw [total_eq_specScore psi4 _ ⟨true, true, "good"⟩ tl mol (by decide) rfl]) ] <;>
    unfold specSoftwareScore <;>
    norm_num [specPerformanceBonus, show psi4.typ = "open_source" from rfl,
      show jsIncludes psi4.installCommand "Manual" = false from by decide] <;>
    split_ifs <;> omega

end ExecutionPlanner

namespace AccuracyEstimator

lemma precision_lookup_isSome (s : String) :
    (precisionAccuracy.lookup s).isSome = true ↔
      s ∈ (["low", "half", "full"] : List String) := by
  by_cases h1 : s = "low"
  · subst h1; simp [precisionAccuracy]
  by_cases h2 : s = "half"
  · subst h2; simp [precisionAccuracy]
  by_cases h3 : s = "full"
  · subst h3; simp [precisionAccuracy]
  have e1 : (s == "low") = false := by simp [h1]
  have e2 : (s == "half") = false := by simp [h2]
  have e3 : (s == "full") = false := by simp [h3]
  simp [precisionAccuracy, List.lookup, e1, e2, e3, h1, h2, h3]

end AccuracyEstimator

namespace PrecisionCalculator

lemma getSizeCategory_cases (q : ℚ) :
    getSizeCategory q = "small" ∨ getSizeCategory q = "medium" ∨
      getSizeCategory q = "large" := by
  unfold getSizeCategory
  split_ifs <;> simp

lemma full_overall_le (h : ℚ) :
    jsRound ((10 + (if h < 4 then (6 : ℚ) else if h < 12 then 4 else 2) +
      (if h < 2 then (8 : ℚ) else if h < 8 then 6 else 4)) / 3) ≤ 8 := by
  split_ifs <;> norm_num [jsRound, Int.floor_le_iff]

/-- Shape of the result of `calculatePrecisionOptions`, for every input: it
always succeeds, always yields exactly the three tiers in order
`[full, half, low]` with priorities `[1, 2, 3]`, and the half/low tiers have
the constant overall cost-benefit scores 8 and 7 while the full tier's score
never exceeds 8. -/
lemma calcOptions_shape (pow : ℚ → ℚ → ℚ) (ct : String) (mi : MoleculeInfo)
    (tl : ExecutionPlanner.TheoryLevel) (software : String) :
    ∃ o1 o2 o3, calculatePrecisionOptions pow ct mi tl software = some [o1, o2, o3] ∧
      o1.level = "full" ∧ o2.level = "half" ∧ o3.level = "low" ∧
      o1.priority = 1 ∧ o2.priority = 2 ∧ o3.priority = 3 ∧
      o1.costBenefit.overallScore ≤ 8 ∧ o2.costBenefit.overallScore = 8 ∧
      o3.costBenefit.overallScore = 7 := by
  rcases getSizeCategory_cases (estimateMoleculeSize mi) with hcat | hcat | hcat <;>
    simp only [calculatePrecisionOptions, hcat] <;>
    refine ⟨_, _, _, rfl, rfl, rfl, rfl, rfl, rfl, rfl, ?_, ?_, ?_⟩ <;>
    first
      | exact full_overall_le _
      | norm_num [jsRound, Int.floor_eq_iff]

end PrecisionCalculator

/-! ## Claim theorems -/

/-- C1 (counterexample): the claim fails as stated.  The keyword `spectrum`
belongs to `frequency_analysis`, but classifying the request `"spectrum"`
returns `absorption_spectrum`, whose keyword list is scanned first. -/
theorem c1_counterexample :
    (∃ info, ResearchPlanner.calculationTypes.lookup "frequency_analysis" = some info ∧
      "spectrum" ∈ info.keywords) ∧
    ResearchPlanner.identifyCalculationType "spectrum" = some "absorption_spectrum" ∧
    "absorption_spectrum" ≠ "frequency_analysis" := by
  refine ⟨⟨_, rfl, ?_⟩, by decide, by decide⟩
  decide

/-- C1 (amended): every keyword list in the calculation-type table is
non-empty, and classifying a request consisting of exactly one keyword
returns the first tag in table order owning a matching keyword.  That is the
keyword's own tag except for `spectrum` under `frequency_analysis` (classified
as `absorption_spectrum`) and `energy` under `reaction_energy` (classified as
`homo_lumo`). -/
theorem c1_keyword_classification :
    ∀ p ∈ ResearchPlanner.calculationTypes,
      p.2.keywords ≠ [] ∧
      ∀ k ∈ p.2.keywords,
        ResearchPlanner.identifyCalculationType k = some (c1ExpectedTag p.1 k) := by
  decide

/-- C1 (witness): the amended theorem applied to the `nmr_prediction` row and
its keyword `nmr`. -/
theorem c1_witness :
    ResearchPlanner.identifyCalculationType "nmr" =
      some (c1ExpectedTag "nmr_prediction" "nmr") :=
  (c1_keyword_classification
    ("nmr_prediction",
      { name := "NMR Chemical Shift Prediction"
        keywords := ["nmr", "chemical shift", "1h", "13c", "proton", "carbon"] })
    (by decide)).2 "nmr" (by decide)

/-- C2: when the benchmark table has an entry for
`(calculationType, software)`, the total estimated minutes equal
`base * (size/10)^scaling * basisFactor * precisionFactor * functionalFactor`
(with defaults 1.5 / 1.0 / 1.0 for missing keys), the returned `minutes` and
`range.min`/`range.max` fields are the JavaScript-rounded total and the ±30%
band around it, and `range.minHours`/`range.maxHours` carry the exact band;
when the entry is absent, the estimate is exactly the default-table estimate,
which depends only on `(calculationType, precisionLevel)`. -/
theorem c2_time_estimate_formula :
    (∀ (pow : ℚ → ℚ → ℚ) (p : TimeEstimator.TimeParams) (bd : TimeEstimator.BaseData),
      (TimeEstimator.baseTimes.lookup p.calculationType).bind
          (fun t => t.lookup p.software) = some bd →
      (TimeEstimator.estimate pow p).hours * 60 =
          bd.base * pow (p.moleculeSize / 10) bd.scaling *
            ((TimeEstimator.basisSetFactors.lookup p.basisSet).getD 1.5) *
            ((TimeEstimator.precisionFactors.lookup p.precisionLevel).getD 1.0) *
            ((TimeEstimator.functionalFactors.lookup p.functional).getD 1.0) ∧
      (TimeEstimator.estimate pow p).minutes =
          ((jsRound ((TimeEstimator.estimate pow p).hours * 60) : ℤ) : ℚ) ∧
      (TimeEstimator.estimate pow p).range.minHours * 60 =
          (TimeEstimator.estimate pow p).hours * 60 * 0.7 ∧
      (TimeEstimator.estimate pow p).range.maxHours * 60 =
          (TimeEstimator.estimate pow p).hours * 60 * 1.3 ∧
      (TimeEstimator.estimate pow p).range.min =
          jsRound ((TimeEstimator.estimate pow p).hours * 60 * 0.7) ∧
      (TimeEstimator.estimate pow p).range.max =
          jsRound ((TimeEstimator.estimate pow p).hours * 60 * 1.3)) ∧
    (∀ (pow : ℚ → ℚ → ℚ) (p : TimeEstimator.TimeParams),
      (TimeEstimator.baseTimes.lookup p.calculationType).bind
          (fun t => t.lookup p.software) = none →
      TimeEstimator.estimate pow p =
        TimeEstimator.getDefaultEstimate p.calculationType p.precisionLevel) := by
  constructor
  · intro pow p bd h
    have h60 : (60 : ℚ) ≠ 0 := by norm_num
    simp only [TimeEstimator.estimate, h, TimeEstimator.formatTimeEstimate]
    rw [div_mul_cancel₀ _ h60, div_mul_cancel₀ _ h60, div_mul_cancel₀ _ h60]
    refine ⟨rfl, rfl, by ring_nf, by ring_nf, by ring_nf, by ring_nf⟩
  · intro pow p h
    simp only [TimeEstimator.estimate, h]

/-- C2 (witness): the formula branch at the `absorption_spectrum`/`psi4`
fixture, and the default branch at the `homo_lumo` fixture (no benchmark
row). -/
theorem c2_witness :
    (TimeEstimator.estimate powLin tpBench).hours * 60 =
      (15 : ℚ) * powLin (10 / 10) 3.0 * 3.0 * 1.0 * 1.0 ∧
    TimeEstimator.estimate powLin tpDefault =
      TimeEstimator.getDefaultEstimate "homo_lumo" "half" :=
  ⟨(c2_time_estimate_formula.1 powLin tpBench ⟨15, 3.0⟩ rfl).1,
    c2_time_estimate_formula.2 powLin tpDefault rfl⟩

/-- C3: for a supported calculation type, the software score is exactly the
sum of the independent additive terms enumerated by the claim: recommendation
(30/10), performance bonus (25/20/10/0), method-or-type strength match (+20),
the molecule-size term (+15 / additional +10 / −20), open-source (+15) and
automatic installation (+10). -/
theorem c3_score_additive (sw : ExecutionPlanner.Software) (ct : String)
    (cs : ExecutionPlanner.CalcSupport) (tl : ExecutionPlanner.TheoryLevel)
    (mol : Option ExecutionPlanner.Molecule)
    (hl : sw.calculationTypes.lookup ct = some cs) (hs : cs.supported = true) :
    (ExecutionPlanner.calculateSoftwareScore sw ct tl mol).total =
      specSoftwareScore sw cs ct tl mol :=
  ExecutionPlanner.total_eq_specScore sw ct cs tl mol hl hs

/-- C3 (witness): the additive decomposition at the psi4 / `nmr_prediction` /
60-atom fixture. -/
theorem c3_witness :
    (ExecutionPlanner.calculateSoftwareScore ExecutionPlanner.psi4 "nmr_prediction"
        b3lypTheoryLevel (some ⟨some 60⟩)).total =
      specSoftwareScore ExecutionPlanner.psi4 ⟨true, false, "fair"⟩ "nmr_prediction"
        b3lypTheoryLevel (some ⟨some 60⟩) :=
  c3_score_additive ExecutionPlanner.psi4 "nmr_prediction" ⟨true, false, "fair"⟩
    b3lypTheoryLevel (some ⟨some 60⟩) rfl rfl

/-- C4: the adjusted expected mean error is
`baseMeanError * precisionMultiplier * functionalGeneralAccuracy` (the
functional multiplier defaulting to 1.0 for unknown functionals), the
confidence interval is the asymmetric band `[0.5 x, 1.8 x]` around it, the
precision multipliers are low = 2.5, half = 1.0, full = 0.7, and when the
benchmark entry for `functional/basisSet` is absent the base mean error is
`typeBaseCoefficient * (1.5 - basisQuality)` with quality 0.5 for basis sets
outside the static quality table. -/
theorem c4_accuracy_estimate (ct f b pl rl : String)
    (pc : AccuracyEstimator.PrecisionRec) (r : AccuracyEstimator.AccuracyResult)
    (hpl : AccuracyEstimator.precisionAccuracy.lookup pl = some pc)
    (hest : AccuracyEstimator.estimate ⟨ct, pl, b, f, rl⟩ = some r) :
    r.expectedError.mean =
        (AccuracyEstimator.getBaseAccuracy ct f b).meanError * pc.multiplier *
          (((AccuracyEstimator.functionalCorrections.lookup f).map
              AccuracyEstimator.FunctionalRec.generalAccuracy).getD 1.0) ∧
    r.expectedError.range.low = r.expectedError.mean * 0.5 ∧
    r.expectedError.range.high = r.expectedError.mean * 1.8 ∧
    (pl = "low" → pc.multiplier = 2.5) ∧
    (pl = "half" → pc.multiplier = 1.0) ∧
    (pl = "full" → pc.multiplier = 0.7) ∧
    (∀ c : ℚ,
      (AccuracyEstimator.accuracyBenchmarks.lookup ct).bind
          (fun t => t.lookup (f ++ "/" ++ b)) = none →
      specTypeBaseCoeff.lookup ct = some c →
      (AccuracyEstimator.getBaseAccuracy ct f b).meanError =
        c * (1.5 - AccuracyEstimator.estimateBasisSetQuality b)) ∧
    (∀ b2, AccuracyEstimator.qualityMap.lookup b2 = none →
      AccuracyEstimator.estimateBasisSetQuality b2 = 0.5) := by
  have hr : r = { expectedError := AccuracyEstimator.calculateExpectedError
                    (AccuracyEstimator.getBaseAccuracy ct f b) pc
                    ((AccuracyEstimator.functionalCorrections.lookup f).getD ⟨1.0, 1.0⟩)
                  confidence := AccuracyEstimator.getConfidenceLevel ⟨ct, pl, b, f, rl⟩ } := by
    unfold AccuracyEstimator.estimate at hest
    rw [hpl] at hest
    exact (Option.some.inj hest).symm
  subst hr
  refine ⟨?_, rfl, rfl, ?_, ?_, ?_, ?_, ?_⟩
  · cases hf : AccuracyEstimator.functionalCorrections.lookup f <;>
      simp [hf, AccuracyEstimator.calculateExpectedError]
  · intro h; subst h; rw [← Option.some.inj hpl]
  · intro h; subst h; rw [← Option.some.inj hpl]
  · intro h; subst h; rw [← Option.some.inj hpl]
  · intro c hnone hc
    simp only [AccuracyEstimator.getBaseAccuracy, hnone]
    by_cases h1 : ct = "absorption_spectrum"
    · subst h1
      rw [show c = (0.4 : ℚ) from (Option.some.inj hc).symm]
      rfl
    by_cases h2 : ct = "geometry_optimization"
    · subst h2
      rw [show c = (0.02 : ℚ) from (Option.some.inj hc).symm]
      rfl
    by_cases h3 : ct = "frequency_analysis"
    · subst h3
      rw [show c = (50 : ℚ) from (Option.some.inj hc).symm]
      rfl
    by_cases h4 : ct = "homo_lumo"
    · subst h4
      rw [show c = (0.5 : ℚ) from (Option.some.inj hc).symm]
      rfl
    · exfalso
      have e1 : (ct == "absorption_spectrum") = false := by simp [h1]
      have e2 : (ct == "geometry_optimization") = false := by simp [h2]
      have e3 : (ct == "frequency_analysis") = false := by simp [h3]
      have e4 : (ct == "homo_lumo") = false := by simp [h4]
      simp [specTypeBaseCoeff, List.lookup, e1, e2, e3, e4] at hc
  · intro b2 hq
    unfold AccuracyEstimator.estimateBasisSetQuality
    rw [hq]
    rfl

/-- C4 (witness): the theorem applied at the `emission_spectrum` / `low` /
unknown-basis / `PBE` fixture. -/
theorem c4_witness :
    ∃ r, AccuracyEstimator.estimate apFallback = some r ∧
      r.expectedError.range.low = r.expectedError.mean * 0.5 ∧
      r.expectedError.range.high = r.expectedError.mean * 1.8 := by
  refine ⟨_, rfl, ?_, ?_⟩
  · exact (c4_accuracy_estimate "emission_spectrum" "PBE" "weird" "low" "full"
      ⟨2.5⟩ _ rfl rfl).2.1
  · exact (c4_accuracy_estimate "emission_spectrum" "PBE" "weird" "low" "full"
      ⟨2.5⟩ _ rfl rfl).2.2.1

/-- C5: a software whose support entry for the calculation type is absent or
marked unsupported scores exactly 0, and for every CalculationType of the
planner's table the top-ranked (selected) software is always one whose entry
is present and supported. -/
theorem c5_never_selects_unsupported :
    (∀ (sw : ExecutionPlanner.Software) (ct : String)
       (tl : ExecutionPlanner.TheoryLevel) (mol : Option ExecutionPlanner.Molecule),
       (∀ cs, sw.calculationTypes.lookup ct = some cs → cs.supported = false) →
       (ExecutionPlanner.calculateSoftwareScore sw ct tl mol).total = 0) ∧
    (∀ ct ∈ ResearchPlanner.calculationTypes.map Prod.fst,
       ∀ (tl : ExecutionPlanner.TheoryLevel) (mol : Option ExecutionPlanner.Molecule),
       ∃ sel rest, ExecutionPlanner.rankSoftware ct tl mol = sel :: rest ∧
         ∃ cs, sel.software.calculationTypes.lookup ct = some cs ∧
           cs.supported = true) := by
  constructor
  · intro sw ct tl mol hbad
    unfold ExecutionPlanner.calculateSoftwareScore
    cases hl : sw.calculationTypes.lookup ct with
    | none => rfl
    | some cs => simp [hbad cs hl]
  · intro ct hct tl mol
    cases hsort : ExecutionPlanner.rankSoftware ct tl mol with
    | nil =>
        exfalso
        unfold ExecutionPlanner.rankSoftware at hsort
        have := ExecutionPlanner.sortDesc_eq_nil hsort
        simp [ExecutionPlanner.softwareCapabilities] at this
    | cons sel rest =>
        refine ⟨sel, rest, rfl, ?_⟩
        have hsort' : ExecutionPlanner.sortDesc
            (ExecutionPlanner.softwareCapabilities.map
              (ExecutionPlanner.rankedEntryFor ct tl mol)) = sel :: rest := hsort
        have hmem_sel := ExecutionPlanner.mem_of_mem_sortDesc
          (hsort' ▸ List.mem_cons_self sel rest)
        have hpsi : ExecutionPlanner.rankedEntryFor ct tl mol ("psi4", ExecutionPlanner.psi4) ∈
            ExecutionPlanner.softwareCapabilities.map
              (ExecutionPlanner.rankedEntryFor ct tl mol) :=
          List.mem_map.mpr ⟨("psi4", ExecutionPlanner.psi4),
            by simp [ExecutionPlanner.softwareCapabilities], rfl⟩
        have hge := ExecutionPlanner.le_head_of_sortDesc _ _ sel rest hpsi hsort'
        have h25 := ExecutionPlanner.psi4_score_ge ct hct tl mol
        obtain ⟨nl, hnl, hselw⟩ := List.mem_map.mp hmem_sel
        have hsw : sel.software = nl.2 := by rw [← hselw]; rfl
        have hsc : sel.score =
            (ExecutionPlanner.calculateSoftwareScore nl.2 ct tl mol).total := by
          rw [← hselw]; rfl
        have hge' : 25 ≤ sel.score := by
          refine le_trans h25 ?_
          simpa [ExecutionPlanner.rankedEntryFor] using hge
        rw [hsw]
        apply ExecutionPlanner.exists_supported_of_total_ne_zero
        rw [← hsc]
        omega

/-- C5 (witness): xtb scores exactly 0 for `absorption_spectrum` (marked
unsupported), and that calculation type still gets a supported selection. -/
theorem c5_witness :
    (ExecutionPlanner.calculateSoftwareScore ExecutionPlanner.xtb "absorption_spectrum"
        b3lypTheoryLevel none).total = 0 ∧
    ∃ sel rest,
      ExecutionPlanner.rankSoftware "absorption_spectrum" b3lypTheoryLevel none =
        sel :: rest ∧
      ∃ cs, sel.software.calculationTypes.lookup "absorption_spectrum" = some cs ∧
        cs.supported = true :=
  ⟨c5_never_selects_unsupported.1 ExecutionPlanner.xtb "absorption_spectrum"
      b3lypTheoryLevel none
      (fun cs h => by cases Option.some.inj h; rfl),
    c5_never_selects_unsupported.2 "absorption_spectrum" (by decide)
      b3lypTheoryLevel none⟩

/-- C6: for every input, `calculatePrecisionOptions` returns exactly three
options, one per tier, in the priority order `[full, half, low]` with
priorities `[1, 2, 3]`. -/
theorem c6_three_ordered_tiers (pow : ℚ → ℚ → ℚ) (ct : String)
    (mi : PrecisionCalculator.MoleculeInfo) (tl : ExecutionPlanner.TheoryLevel)
    (software : String) :
    ∃ l, PrecisionCalculator.calculatePrecisionOptions pow ct mi tl software = some l ∧
      l.map PrecisionCalculator.PrecisionOption.level = ["full", "half", "low"] ∧
      l.map PrecisionCalculator.PrecisionOption.priority = [1, 2, 3] := by
  obtain ⟨o1, o2, o3, heq, h1, h2, h3, p1, p2, p3, -, -, -⟩ :=
    PrecisionCalculator.calcOptions_shape pow ct mi tl software
  exact ⟨[o1, o2, o3], heq, by simp [h1, h2, h3], by simp [p1, p2, p3]⟩

/-- C8: the confidence percentage of every accuracy estimate lies in the
closed interval `[20, 95]`. -/
theorem c8_confidence_clamped (p : AccuracyEstimator.AccuracyParams)
    (r : AccuracyEstimator.AccuracyResult)
    (hest : AccuracyEstimator.estimate p = some r) :
    20 ≤ r.confidence.percentage ∧ r.confidence.percentage ≤ 95 := by
  have hc : r.confidence = AccuracyEstimator.getConfidenceLevel p := by
    unfold AccuracyEstimator.estimate at hest
    cases hl : AccuracyEstimator.precisionAccuracy.lookup p.precisionLevel with
    | none => rw [hl] at hest; cases hest
    | some pc => rw [hl] at hest; rw [← Option.some.inj hest]
  rw [hc]
  unfold AccuracyEstimator.getConfidenceLevel
  exact ⟨le_max_left _ _, max_le (by norm_num) (min_le_left _ _)⟩

/-- C8 (witness): the clamp bounds at a concrete best-case fixture. -/
theorem c8_witness :
    ∃ r, AccuracyEstimator.estimate
        ⟨"geometry_optimization", "full", "def2-TZVP", "B3LYP", "experiment"⟩ = some r ∧
      20 ≤ r.confidence.percentage ∧ r.confidence.percentage ≤ 95 :=
  ⟨_, rfl, c8_confidence_clamped
    ⟨"geometry_optimization", "full", "def2-TZVP", "B3LYP", "experiment"⟩ _ rfl⟩

/-- C9 (counterexample): the claim fails as stated — `AccuracyEstimator.estimate`
does not fall back to a default for a precision level outside
`{low, half, full}`; the source throws a `TypeError` dereferencing
`precisionCorrection.multiplier` on `undefined` (modelled as `none`). -/
theorem c9_counterexample :
    AccuracyEstimator.estimate
      ⟨"absorption_spectrum", "medium", "def2-SVP", "B3LYP", "full"⟩ = none := rfl

/-- C9 (amended): `AccuracyEstimator.estimate` returns a result exactly when
the precision level is one of `low`, `half`, `full` (and throws otherwise),
and the precision-calculator pipeline — which only uses those three levels —
returns a result for every input, including calculation types, basis sets,
functionals and software names absent from every table and molecule
descriptors lacking size information; `TimeEstimator.estimate` is total by
construction. -/
theorem c9_no_throw_except_bad_precision :
    (∀ p : AccuracyEstimator.AccuracyParams,
      (AccuracyEstimator.estimate p).isSome = true ↔
        p.precisionLevel ∈ (["low", "half", "full"] : List String)) ∧
    (∀ (pow : ℚ → ℚ → ℚ) (ct : String) (mi : PrecisionCalculator.MoleculeInfo)
       (tl : ExecutionPlanner.TheoryLevel) (software : String),
      (PrecisionCalculator.calculatePrecisionOptions pow ct mi tl software).isSome =
        true) := by
  constructor
  · intro p
    rw [← AccuracyEstimator.precision_lookup_isSome]
    unfold AccuracyEstimator.estimate
    cases hl : AccuracyEstimator.precisionAccuracy.lookup p.precisionLevel <;> simp [hl]
  · intro pow ct mi tl software
    obtain ⟨o1, o2, o3, heq, -⟩ :=
      PrecisionCalculator.calcOptions_shape pow ct mi tl software
    simp [heq]

/-- C10: the overall tier recommendation never selects the `low` tier: the
low tier's overall cost-benefit score is the constant 7, the half tier's is
the constant 8, and the tie-keeping `reduce` over the `[full, half, low]`
ordering therefore always recommends `full` or `half`. -/
theorem c10_never_recommends_low (pow : ℚ → ℚ → ℚ) (ct : String)
    (mi : PrecisionCalculator.MoleculeInfo) (tl : ExecutionPlanner.TheoryLevel)
    (software : String) (l : List PrecisionCalculator.PrecisionOption)
    (r : PrecisionCalculator.OverallRec)
    (hcalc : PrecisionCalculator.calculatePrecisionOptions pow ct mi tl software = some l)
    (hrec : PrecisionCalculator.getOverallRecommendation l = some r) :
    (r.recommended = "full" ∨ r.recommended = "half") ∧
    ∃ o1 o2 o3, l = [o1, o2, o3] ∧
      o2.level = "half" ∧ o2.costBenefit.overallScore = 8 ∧
      o3.level = "low" ∧ o3.costBenefit.overallScore = 7 := by
  obtain ⟨o1, o2, o3, heq, h1, h2, h3, p1, p2, p3, hb1, hb2, hb3⟩ :=
    PrecisionCalculator.calcOptions_shape pow ct mi tl software
  rw [hcalc] at heq
  have hl : l = [o1, o2, o3] := Option.some.inj heq
  subst hl
  refine ⟨?_, o1, o2, o3, rfl, h2, hb2, h3, hb3⟩
  unfold PrecisionCalculator.getOverallRecommendation at hrec
  simp only [List.foldl] at hrec
  have hr := (Option.some.inj hrec).symm
  by_cases hx : o1.costBenefit.overallScore < o2.costBenefit.overallScore
  · right
    rw [hr]
    simp only [if_pos hx]
    rw [if_neg (by rw [hb2, hb3]; norm_num)]
    exact h2
  · left
    rw [hr]
    simp only [if_neg hx]
    rw [if_neg (by rw [hb3]; rw [hb2] at hx; omega)]
    exact h1

/-- C10 (witness): the theorem applied at the benzene / geometry-optimization
/ psi4 fixture. -/
theorem c10_witness :
    ∃ l r, PrecisionCalculator.calculatePrecisionOptions powLin "geometry_optimization"
        benzeneInfo b3lypTheoryLevel "psi4" = some l ∧
      PrecisionCalculator.getOverallRecommendation l = some r ∧
      (r.recommended = "full" ∨ r.recommended = "half") := by
  refine ⟨_, _, rfl, rfl, (c10_never_recommends_low powLin "geometry_optimization"
    benzeneInfo b3lypTheoryLevel "psi4" _ _ rfl rfl).1⟩

/-- C7: at the benzene / `absorption_spectrum` / psi4 / CAM-B3LYP fixture
(estimated size 6, small category) the three tiers use the basis sets
def2-QZVP / def2-TZVP / def2-SVP, their options carry exactly the time
estimator's ranges for those parameters, and the tiers' total estimated times
are monotone: full ≥ half ≥ low (stated on the `hours` field, which is the
total minutes divided by 60).  The only assumption is that the modelled
`Math.pow` is non-negative at the fixture's size ratio `(6/10)^3`. -/
theorem c7_benzene_times_monotone (pow : ℚ → ℚ → ℚ)
    (hpow : 0 ≤ pow (6 / 10) 3.0) :
    ∃ o1 o2 o3,
      PrecisionCalculator.calculatePrecisionOptions pow "absorption_spectrum"
          benzeneInfo camTheoryLevel "psi4" = some [o1, o2, o3] ∧
      o1.level = "full" ∧ o2.level = "half" ∧ o3.level = "low" ∧
      o1.timeRange = (TimeEstimator.estimate pow (c7Params "full" "def2-QZVP")).range ∧
      o2.timeRange = (TimeEstimator.estimate pow (c7Params "half" "def2-TZVP")).range ∧
      o3.timeRange = (TimeEstimator.estimate pow (c7Params "low" "def2-SVP")).range ∧
      (TimeEstimator.estimate pow (c7Params "half" "def2-TZVP")).hours ≤
        (TimeEstimator.estimate pow (c7Params "full" "def2-QZVP")).hours ∧
      (TimeEstimator.estimate pow (c7Params "low" "def2-SVP")).hours ≤
        (TimeEstimator.estimate pow (c7Params "half" "def2-TZVP")).hours := by
  have hfull : (TimeEstimator.estimate pow (c7Params "full" "def2-QZVP")).hours =
      15 * pow (6 / 10) 3.0 * 8.0 * 2.5 * 1.3 / 60 := rfl
  have hhalf : (TimeEstimator.estimate pow (c7Params "half" "def2-TZVP")).hours =
      15 * pow (6 / 10) 3.0 * 3.0 * 1.0 * 1.3 / 60 := rfl
  have hlow : (TimeEstimator.estimate pow (c7Params "low" "def2-SVP")).hours =
      15 * pow (6 / 10) 3.0 * 1.5 * 0.5 * 1.3 / 60 := rfl
  have hcat : PrecisionCalculator.getSizeCategory
      (PrecisionCalculator.estimateMoleculeSize benzeneInfo) = "small" := rfl
  simp only [PrecisionCalculator.calculatePrecisionOptions, hcat]
  refine ⟨_, _, _, rfl, rfl, rfl, rfl, rfl, rfl, rfl, ?_, ?_⟩
  · rw [hhalf, hfull]
    have h65 : 15 * pow (6 / 10) 3.0 * 8.0 * 2.5 * 1.3 / 60 =
        (13 / 2) * pow (6 / 10) 3.0 := by ring
    have h0975 : 15 * pow (6 / 10) 3.0 * 3.0 * 1.0 * 1.3 / 60 =
        (39 / 40) * pow (6 / 10) 3.0 := by ring
    rw [h65, h0975]
    linarith
  · rw [hhalf, hlow]
    have h0975 : 15 * pow (6 / 10) 3.0 * 3.0 * 1.0 * 1.3 / 60 =
        (39 / 40) * pow (6 / 10) 3.0 := by ring
    have h024 : 15 * pow (6 / 10) 3.0 * 1.5 * 0.5 * 1.3 / 60 =
        (39 / 160) * pow (6 / 10) 3.0 := by ring
    rw [h0975, h024]
    linarith

/-- C7 (witness): the monotonicity theorem applied with cubing as the
concrete `Math.pow`. -/
theorem c7_witness :
    ∃ o1 o2 o3,
      PrecisionCalculator.calculatePrecisionOptions powCube "absorption_spectrum"
          benzeneInfo camTheoryLevel "psi4" = some [o1, o2, o3] ∧
      o1.level = "full" ∧ o2.level = "half" ∧ o3.level = "low" ∧
      o1.timeRange = (TimeEstimator.estimate powCube (c7Params "full" "def2-QZVP")).range ∧
      o2.timeRange = (TimeEstimator.estimate powCube (c7Params "half" "def2-TZVP")).range ∧
      o3.timeRange = (TimeEstimator.estimate powCube (c7Params "low" "def2-SVP")).range ∧
      (TimeEstimator.estimate powCube (c7Params "half" "def2-TZVP")).hours ≤
        (TimeEstimator.estimate powCube (c7Params "full" "def2-QZVP")).hours ∧
      (TimeEstimator.estimate powCube (c7Params "low" "def2-SVP")).hours ≤
        (TimeEstimator.estimate powCube (c7Params "half" "def2-TZVP")).hours :=
  c7_benzene_times_monotone powCube (by norm_num [powCube])
